import Mathlib

/-!
Verification of the collision-volume core of the repository: the
axis-aligned `BBox` bounding volume with its `CollideType` content mask
and pairwise `intersect`, and the canonical `PlaneKey` plane identity
with its orientation basis.  The implementation modules (`collisions`
and `plane`) are not present in the source tree — only their test
suites are — so the definitions below are modelled from the design
specification, with coordinates embedded as rationals.
-/

attribute [local semireducible] Rat.add Rat.mul Rat.sub Rat.inv

/-- Modelled from the spec: a three-component coordinate vector, the
corner / direction type used by the collision library (the source uses
the srctools `Vec` class with real components). -/
structure Vec3 where
  x : ℚ
  y : ℚ
  z : ℚ
deriving DecidableEq, Repr

/-- Componentwise minimum of two corner vectors. -/
def vmin (a b : Vec3) : Vec3 :=
  ⟨min a.x b.x, min a.y b.y, min a.z b.z⟩

/-- Componentwise maximum of two corner vectors. -/
def vmax (a b : Vec3) : Vec3 :=
  ⟨max a.x b.x, max a.y b.y, max a.z b.z⟩

/-- Componentwise translation of a corner vector by an offset. -/
def Vec3.add (a t : Vec3) : Vec3 :=
  ⟨a.x + t.x, a.y + t.y, a.z + t.z⟩

/-- Dot product of two vectors. -/
def dotv (a b : Vec3) : ℚ :=
  a.x * b.x + a.y * b.y + a.z * b.z

/-- Modelled from the spec: the six canonical axis directions of the
srctools `Vec` constants — east is positive x. -/
def Vec3.E : Vec3 := ⟨1, 0, 0⟩

/-- West, negative x. -/
def Vec3.W : Vec3 := ⟨-1, 0, 0⟩

/-- North, positive y. -/
def Vec3.N : Vec3 := ⟨0, 1, 0⟩

/-- South, negative y. -/
def Vec3.S : Vec3 := ⟨0, -1, 0⟩

/-- Top, positive z. -/
def Vec3.T : Vec3 := ⟨0, 0, 1⟩

/-- Bottom, negative z. -/
def Vec3.B : Vec3 := ⟨0, 0, -1⟩

/-- Modelled from the spec: the `CollideType` content bitmask is a set
of independent flags packed into an integer; we embed it as a natural
number combined with bitwise operations.  Only the solid flag is
singled out by the construction contract (it is the default). -/
def CollideType.SOLID : Nat := 1

/-- Modelled from the spec: the immutable axis-aligned bounding volume.
Fields follow the source accessors `mins` / `maxes` / `contents`;
immutability is inherent to the embedding. -/
structure BBox where
  mins : Vec3
  maxes : Vec3
  contents : Nat
deriving DecidableEq, Repr

/-- Number of zero-thickness (degenerate) axes of a corner pair: axes
on which the two corners agree. -/
def degenCount (mn mx : Vec3) : Nat :=
  (if mn.x = mx.x then 1 else 0) +
  (if mn.y = mx.y then 1 else 0) +
  (if mn.z = mx.z then 1 else 0)

/-- Modelled from the spec: the validating `BBox` constructor.  The two
corner points are given in either order and are normalised per axis by
min / max; construction fails (`InvalidGeometry`, embedded as `none`)
when two or more axes are zero-thickness after normalisation. -/
def BBox.make (a b : Vec3) (contents : Nat) : Option BBox :=
  if 2 ≤ degenCount (vmin a b) (vmax a b) then none
  else some ⟨vmin a b, vmax a b, contents⟩

/-- Modelled from the spec: construction with the optional content mask
omitted, which defaults to the solid flag. -/
def BBox.makeDefault (a b : Vec3) : Option BBox :=
  BBox.make a b CollideType.SOLID

/-- Modelled from the spec: a box is a plane when exactly one axis has
zero thickness. -/
def BBox.is_plane (b : BBox) : Bool :=
  degenCount b.mins b.maxes == 1

/-- Modelled from the spec: the positive unit vector along the
zero-thickness axis; meaningful only when the box is a plane. -/
def BBox.plane_normal (b : BBox) : Vec3 :=
  if b.mins.x = b.maxes.x then ⟨1, 0, 0⟩
  else if b.mins.y = b.maxes.y then ⟨0, 1, 0⟩
  else ⟨0, 0, 1⟩

/-- Modelled from the spec: pairwise intersection.  Per axis take
`lo = max` of the mins and `hi = min` of the maxes; if any axis has
`lo > hi` there is no overlap.  The result carries the bitwise AND of
the operand masks.  The overlap region is returned as a `BBox`, whose
invariant forbids two or more zero-thickness axes; since `intersect`
never raises, an edge or corner contact is likewise reported as no
intersection. -/
def BBox.intersect (a b : BBox) : Option BBox :=
  if (vmin a.maxes b.maxes).x < (vmax a.mins b.mins).x
      ∨ (vmin a.maxes b.maxes).y < (vmax a.mins b.mins).y
      ∨ (vmin a.maxes b.maxes).z < (vmax a.mins b.mins).z then none
  else if 2 ≤ degenCount (vmax a.mins b.mins) (vmin a.maxes b.maxes) then none
  else some ⟨vmax a.mins b.mins, vmin a.maxes b.maxes, a.contents &&& b.contents⟩

/-- Translation of a box: both corners move by the offset, the contents
are unchanged. -/
def BBox.translate (b : BBox) (t : Vec3) : BBox :=
  ⟨b.mins.add t, b.maxes.add t, b.contents⟩

/-- The same box with its content mask replaced. -/
def BBox.withContents (b : BBox) (c : Nat) : BBox :=
  ⟨b.mins, b.maxes, c⟩

/-- Modelled from the spec: the floating tolerance of the canonical-axis
snap, embedded as a fixed small rational. -/
def tol : ℚ := 1 / 1000000

/-- Absolute value of a rational, written as an executable branch. -/
def qabs (q : ℚ) : ℚ := if q < 0 then -q else q

/-- Modelled from the spec: canonicalisation of a plane direction.  The
direction is snapped to the axis of its dominant (largest-magnitude)
component, the sign of that component selecting the positive or the
negative canonical axis; a zero direction, or one that is not aligned to
a single axis within tolerance, is rejected (`InvalidGeometry`,
embedded as `none`). -/
def canonNormal (d : Vec3) : Option Vec3 :=
  if qabs d.y ≤ qabs d.x ∧ qabs d.z ≤ qabs d.x then
    if tol < qabs d.x ∧ qabs d.y ≤ tol ∧ qabs d.z ≤ tol then
      some (if 0 < d.x then Vec3.E else Vec3.W)
    else none
  else if qabs d.z ≤ qabs d.y then
    if tol < qabs d.y ∧ qabs d.x ≤ tol ∧ qabs d.z ≤ tol then
      some (if 0 < d.y then Vec3.N else Vec3.S)
    else none
  else
    if tol < qabs d.z ∧ qabs d.x ≤ tol ∧ qabs d.y ≤ tol then
      some (if 0 < d.z then Vec3.T else Vec3.B)
    else none

/-- A direction is acceptable to `PlaneKey` exactly when one component
exceeds the tolerance in magnitude while the other two stay within it;
this is the specification-side reading of the alignment requirement,
stated independently of the dominance branching of `canonNormal`. -/
def alignedDir (d : Vec3) : Prop :=
  (tol < qabs d.x ∧ qabs d.y ≤ tol ∧ qabs d.z ≤ tol) ∨
  (tol < qabs d.y ∧ qabs d.x ≤ tol ∧ qabs d.z ≤ tol) ∨
  (tol < qabs d.z ∧ qabs d.x ≤ tol ∧ qabs d.y ≤ tol)

instance (d : Vec3) : Decidable (alignedDir d) := by
  unfold alignedDir
  infer_instance

/-- Modelled from the spec: the canonical plane identity — one of the
six canonical axes plus a signed distance from the origin. -/
structure PlaneKey where
  normal : Vec3
  distance : ℚ
deriving DecidableEq, Repr

/-- Modelled from the spec: construction form A, from a direction and a
distance.  The direction is canonicalised; if canonicalisation flips
the sign of the dominant component (the canonical normal points against
the input along its axis), the distance is negated to match. -/
def PlaneKey.fromDist (dir : Vec3) (dist : ℚ) : Option PlaneKey :=
  (canonNormal dir).map fun n =>
    ⟨n, if dotv n dir < 0 then -dist else dist⟩

/-- Modelled from the spec: construction form B, from a direction and a
point on the plane.  The distance is the dot product of the point with
the canonical post-snap normal, never with the raw input direction. -/
def PlaneKey.fromPoint (dir : Vec3) (pt : Vec3) : Option PlaneKey :=
  (canonNormal dir).map fun n => ⟨n, dotv pt n⟩

/-- An orthonormal orientation basis, stored as its forward, left and
up rows, matching the row layout of the srctools rotation matrix. -/
structure Matrix3 where
  f : Vec3
  l : Vec3
  u : Vec3
deriving DecidableEq, Repr

/-- The pitch / yaw / roll Euler-angle triple, in degrees. -/
structure EulerAngle where
  pitch : ℚ
  yaw : ℚ
  roll : ℚ
deriving DecidableEq, Repr

/-- Modelled from the spec: degree sine, exact on the right-angle
values the canonical orientation bases produce. -/
def sind (d : ℚ) : ℚ :=
  if d = 90 then 1 else if d = -90 then -1 else 0

/-- Modelled from the spec: degree cosine, exact on the right-angle
values the canonical orientation bases produce. -/
def cosd (d : ℚ) : ℚ :=
  if d = 0 then 1 else if d = 180 ∨ d = -180 then -1 else 0

/-- Modelled from the spec: two-argument arctangent in degrees, exact
on the axis-aligned inputs the canonical orientation bases produce. -/
def atan2deg (y x : ℚ) : ℚ :=
  if 0 < x ∧ y = 0 then 0
  else if x = 0 ∧ 0 < y then 90
  else if x < 0 ∧ y = 0 then 180
  else if x = 0 ∧ y < 0 then -90
  else 0

/-- Modelled from the spec: square root, exact on the values 0 and 1
that arise as the squared horizontal length of a canonical basis
forward vector. -/
def sqrtq (q : ℚ) : ℚ := if q = 1 then 1 else 0

/-- Modelled from the spec: conversion of a basis to Euler angles,
following the Source-engine convention used by the external math
library — yaw and pitch from the forward vector when it has horizontal
length, otherwise the gimbal-locked branch from the left vector. -/
def Matrix3.to_angle (m : Matrix3) : EulerAngle :=
  let hsq := m.f.x * m.f.x + m.f.y * m.f.y
  if 1 / 1000000 < hsq then
    ⟨atan2deg (-m.f.z) (sqrtq hsq), atan2deg m.f.y m.f.x, atan2deg m.l.z m.u.z⟩
  else
    ⟨atan2deg (-m.f.z) (sqrtq hsq), atan2deg (-m.l.x) m.l.y, 0⟩

/-- Modelled from the spec: conversion of Euler angles to a basis,
following the Source-engine convention used by the external math
library. -/
def Matrix3.from_angle (a : EulerAngle) : Matrix3 :=
  let cp := cosd a.pitch
  let sp := sind a.pitch
  let cy := cosd a.yaw
  let sy := sind a.yaw
  let cr := cosd a.roll
  let sr := sind a.roll
  ⟨⟨cp * cy, cp * sy, -sp⟩,
   ⟨sp * sr * cy - cr * sy, sp * sr * sy + cr * cy, sr * cp⟩,
   ⟨sp * cr * cy + sr * sy, sp * cr * sy - sr * cy, cr * cp⟩⟩

/-- Modelled from the spec: the orientation basis attached to each
canonical normal.  Up is the normal itself; for the four horizontal
normals left is the vertical-up axis, for top and bottom left is north;
forward follows the fixed convention N to W, S to E, E to N, W to S,
T to E, B to W. -/
def orientOf (n : Vec3) : Matrix3 :=
  if n = Vec3.N then ⟨Vec3.W, Vec3.T, Vec3.N⟩
  else if n = Vec3.S then ⟨Vec3.E, Vec3.T, Vec3.S⟩
  else if n = Vec3.E then ⟨Vec3.N, Vec3.T, Vec3.E⟩
  else if n = Vec3.W then ⟨Vec3.S, Vec3.T, Vec3.W⟩
  else if n = Vec3.T then ⟨Vec3.E, Vec3.N, Vec3.T⟩
  else ⟨Vec3.W, Vec3.N, Vec3.B⟩

/-- The orientation basis of a plane key, derived from its normal. -/
def PlaneKey.orient (k : PlaneKey) : Matrix3 := orientOf k.normal

/-- Specification-side description of the canonical snap: `n` is the
canonical axis of the dominant component of `d`, carrying that
component's sign, with the two remaining components within tolerance.
Stated independently of the branching of `canonNormal`. -/
def snapSpec (d n : Vec3) : Prop :=
  (n = Vec3.E ∧ tol < d.x ∧ qabs d.y ≤ qabs d.x ∧ qabs d.z ≤ qabs d.x ∧
    qabs d.y ≤ tol ∧ qabs d.z ≤ tol) ∨
  (n = Vec3.W ∧ d.x < -tol ∧ qabs d.y ≤ qabs d.x ∧ qabs d.z ≤ qabs d.x ∧
    qabs d.y ≤ tol ∧ qabs d.z ≤ tol) ∨
  (n = Vec3.N ∧ tol < d.y ∧ qabs d.x ≤ qabs d.y ∧ qabs d.z ≤ qabs d.y ∧
    qabs d.x ≤ tol ∧ qabs d.z ≤ tol) ∨
  (n = Vec3.S ∧ d.y < -tol ∧ qabs d.x ≤ qabs d.y ∧ qabs d.z ≤ qabs d.y ∧
    qabs d.x ≤ tol ∧ qabs d.z ≤ tol) ∨
  (n = Vec3.T ∧ tol < d.z ∧ qabs d.x ≤ qabs d.z ∧ qabs d.y ≤ qabs d.z ∧
    qabs d.x ≤ tol ∧ qabs d.y ≤ tol) ∨
  (n = Vec3.B ∧ d.z < -tol ∧ qabs d.x ≤ qabs d.z ∧ qabs d.y ≤ qabs d.z ∧
    qabs d.x ≤ tol ∧ qabs d.y ≤ tol)

/-- Helper: minimum equals maximum exactly for equal arguments. -/
theorem qmin_eq_qmax {a b : ℚ} : min a b = max a b ↔ a = b := by
  constructor
  · intro h
    rcases le_total a b with hab | hab
    · have h1 : min a b = a := min_eq_left hab
      have h2 : max a b = b := max_eq_right hab
      rw [h1, h2] at h
      exact h
    · have h1 : min a b = b := min_eq_right hab
      have h2 : max a b = a := max_eq_left hab
      rw [h1, h2] at h
      exact h.symm
  · intro h
    rw [h, min_self, max_self]

/-- Helper: componentwise minimum is symmetric. -/
theorem vmin_comm (a b : Vec3) : vmin a b = vmin b a := by
  unfold vmin
  rw [min_comm, min_comm a.y, min_comm a.z]

/-- Helper: componentwise maximum is symmetric. -/
theorem vmax_comm (a b : Vec3) : vmax a b = vmax b a := by
  unfold vmax
  rw [max_comm, max_comm a.y, max_comm a.z]

/-- C6: intersection is commutative — for every pair of boxes the result
of `intersect` is the same whichever operand is the receiver, in all six
coordinates and in the contents. -/
theorem intersect_comm (A B : BBox) : A.intersect B = B.intersect A := by
  unfold BBox.intersect
  rw [vmax_comm, vmin_comm, Nat.land_comm]

/-- C2: construction normalises the two corners per axis by min / max,
so the result is the same whichever corner is passed first, satisfies
componentwise min-le-max, and the default-mask form uses the solid
flag. -/
theorem bbox_construction_minmax (a b : Vec3) (c : Nat) :
    BBox.make a b c = BBox.make b a c ∧
    (∀ bb, BBox.make a b c = some bb →
      bb.mins.x = min a.x b.x ∧ bb.mins.y = min a.y b.y ∧ bb.mins.z = min a.z b.z ∧
      bb.maxes.x = max a.x b.x ∧ bb.maxes.y = max a.y b.y ∧ bb.maxes.z = max a.z b.z ∧
      bb.mins.x ≤ bb.maxes.x ∧ bb.mins.y ≤ bb.maxes.y ∧ bb.mins.z ≤ bb.maxes.z ∧
      bb.contents = c) ∧
    (BBox.makeDefault a b = BBox.make a b CollideType.SOLID) ∧
    (∀ bb, BBox.makeDefault a b = some bb → bb.contents = CollideType.SOLID) := by
  refine ⟨?_, ?_, rfl, ?_⟩
  · unfold BBox.make
    rw [vmin_comm, vmax_comm]
  · intro bb h
    unfold BBox.make at h
    split at h
    · exact absurd h (by simp)
    · cases h
      exact ⟨rfl, rfl, rfl, rfl, rfl, rfl, min_le_max, min_le_max, min_le_max, rfl⟩
  · intro bb h
    unfold BBox.makeDefault BBox.make at h
    split at h
    · exact absurd h (by simp)
    · cases h
      rfl

/-- C3: construction fails exactly when two or more axes are degenerate,
that is when the two corners agree on at least two coordinates; a plane
(exactly one equal coordinate) or a solid box (none) constructs. -/
theorem bbox_make_none_iff (a b : Vec3) (c : Nat) :
    BBox.make a b c = none ↔
      2 ≤ ((if a.x = b.x then 1 else 0) + (if a.y = b.y then 1 else 0) +
        (if a.z = b.z then 1 else 0) : Nat) := by
  have hx : (min a.x b.x = max a.x b.x) = (a.x = b.x) := propext qmin_eq_qmax
  have hy : (min a.y b.y = max a.y b.y) = (a.y = b.y) := propext qmin_eq_qmax
  have hz : (min a.z b.z = max a.z b.z) = (a.z = b.z) := propext qmin_eq_qmax
  unfold BBox.make degenCount vmin vmax
  simp only [hx, hy, hz]
  by_cases hc : 2 ≤ ((if a.x = b.x then 1 else 0) + (if a.y = b.y then 1 else 0) +
      (if a.z = b.z then 1 else 0) : Nat)
  · simp [hc]
  · simp [hc]

/-- C5: on a non-empty intersection the resulting content mask is the
bitwise AND of the operand masks, and whether a geometric intersection
is returned does not depend on the masks at all — in particular an
all-zero AND does not suppress a spatial overlap. -/
theorem intersect_mask_and (A B : BBox) :
    (∀ C, A.intersect B = some C → C.contents = A.contents &&& B.contents) ∧
    (∀ c1 c2, ((A.withContents c1).intersect (B.withContents c2)).isSome =
      (A.intersect B).isSome) := by
  constructor
  · intro C h
    unfold BBox.intersect at h
    split at h
    · exact absurd h (by simp)
    · split at h
      · exact absurd h (by simp)
      · cases h
        rfl
  · intro c1 c2
    by_cases h1 : (vmin A.maxes B.maxes).x < (vmax A.mins B.mins).x
        ∨ (vmin A.maxes B.maxes).y < (vmax A.mins B.mins).y
        ∨ (vmin A.maxes B.maxes).z < (vmax A.mins B.mins).z
    · simp [BBox.intersect, BBox.withContents, h1]
    · by_cases h2 : 2 ≤ degenCount (vmax A.mins B.mins) (vmin A.maxes B.maxes)
      · simp [BBox.intersect, BBox.withContents, h1, h2]
      · simp [BBox.intersect, BBox.withContents, h1, h2]

/-- C7: intersection is a total operation with an explicit absent
result: it never produces a volume the construction invariant rejects
(every returned box has at most one zero-thickness axis), and an edge or
corner contact — two or more zero-thickness axes in the per-axis
overlap — yields the absent result. -/
theorem intersect_never_invalid (A B : BBox) :
    (∀ C, A.intersect B = some C → degenCount C.mins C.maxes ≤ 1) ∧
    (2 ≤ degenCount (vmax A.mins B.mins) (vmin A.maxes B.maxes) →
      A.intersect B = none) := by
  constructor
  · intro C h
    unfold BBox.intersect at h
    split at h
    · exact absurd h (by simp)
    · split at h
      · exact absurd h (by simp)
      · rename_i h2
        cases h
        dsimp only
        omega
  · intro hd
    unfold BBox.intersect
    by_cases h1 : (vmin A.maxes B.maxes).x < (vmax A.mins B.mins).x
        ∨ (vmin A.maxes B.maxes).y < (vmax A.mins B.mins).y
        ∨ (vmin A.maxes B.maxes).z < (vmax A.mins B.mins).z
    · rw [if_pos h1]
    · rw [if_neg h1, if_pos hd]

/-- C10: intersection is translation-invariant — translating both
operands by the same offset translates a present intersection by that
offset and preserves absence. -/
theorem intersect_translation_invariant (t : Vec3) (A B : BBox) :
    (A.translate t).intersect (B.translate t) =
      (A.intersect B).map fun C => C.translate t := by
  unfold BBox.intersect BBox.translate Vec3.add vmin vmax degenCount
  dsimp only
  simp only [max_add_add_right, min_add_add_right, add_lt_add_iff_right, add_left_inj]
  by_cases h1 : min A.maxes.x B.maxes.x < max A.mins.x B.mins.x
      ∨ min A.maxes.y B.maxes.y < max A.mins.y B.mins.y
      ∨ min A.maxes.z B.maxes.z < max A.mins.z B.mins.z
  · rw [if_pos h1, if_pos h1]
    rfl
  · rw [if_neg h1, if_neg h1]
    by_cases h2 : 2 ≤ (((if max A.mins.x B.mins.x = min A.maxes.x B.maxes.x then 1 else 0) +
        (if max A.mins.y B.mins.y = min A.maxes.y B.maxes.y then 1 else 0) +
        (if max A.mins.z B.mins.z = min A.maxes.z B.maxes.z then 1 else 0)) : Nat)
    · rw [if_pos h2, if_pos h2]
      rfl
    · rw [if_neg h2, if_neg h2]
      rfl

/-- C1 counterexample: two validly constructed boxes that touch only at
a corner.  No axis has lo greater than hi, so the claim as stated
demands a (point) result box, but `intersect` reports no
intersection. -/
theorem intersect_corner_touch_cex :
    BBox.make ⟨0, 0, 0⟩ ⟨64, 64, 64⟩ 1 = some ⟨⟨0, 0, 0⟩, ⟨64, 64, 64⟩, 1⟩ ∧
    BBox.make ⟨64, 64, 64⟩ ⟨128, 128, 128⟩ 1 =
      some ⟨⟨64, 64, 64⟩, ⟨128, 128, 128⟩, 1⟩ ∧
    ¬(min (64 : ℚ) 128 < max (0 : ℚ) 64 ∨ min (64 : ℚ) 128 < max (0 : ℚ) 64 ∨
      min (64 : ℚ) 128 < max (0 : ℚ) 64) ∧
    (⟨⟨0, 0, 0⟩, ⟨64, 64, 64⟩, 1⟩ : BBox).intersect
      ⟨⟨64, 64, 64⟩, ⟨128, 128, 128⟩, 1⟩ = none := by
  decide

/-- C1 amended: the per-axis lo / hi algorithm, with the exception the
counterexample forces — the result is also absent when two or more axes
are zero-thickness (edge or corner contact); a face contact, exactly one
zero-thickness axis, still yields the zero-thickness plane box. -/
theorem intersect_per_axis_amended (A B : BBox) :
    (A.intersect B = none ↔
      ((vmin A.maxes B.maxes).x < (vmax A.mins B.mins).x ∨
       (vmin A.maxes B.maxes).y < (vmax A.mins B.mins).y ∨
       (vmin A.maxes B.maxes).z < (vmax A.mins B.mins).z) ∨
      2 ≤ degenCount (vmax A.mins B.mins) (vmin A.maxes B.maxes)) ∧
    (∀ C, A.intersect B = some C →
      C.mins = vmax A.mins B.mins ∧ C.maxes = vmin A.maxes B.maxes ∧
      C.contents = A.contents &&& B.contents) ∧
    (¬((vmin A.maxes B.maxes).x < (vmax A.mins B.mins).x ∨
       (vmin A.maxes B.maxes).y < (vmax A.mins B.mins).y ∨
       (vmin A.maxes B.maxes).z < (vmax A.mins B.mins).z) ∧
      degenCount (vmax A.mins B.mins) (vmin A.maxes B.maxes) = 1 →
      ∃ C, A.intersect B = some C ∧ C.is_plane = true) := by
  refine ⟨?_, ?_, ?_⟩
  · by_cases h1 : (vmin A.maxes B.maxes).x < (vmax A.mins B.mins).x
        ∨ (vmin A.maxes B.maxes).y < (vmax A.mins B.mins).y
        ∨ (vmin A.maxes B.maxes).z < (vmax A.mins B.mins).z
    · simp [BBox.intersect, h1]
    · by_cases h2 : 2 ≤ degenCount (vmax A.mins B.mins) (vmin A.maxes B.maxes)
      · simp [BBox.intersect, h1, h2]
      · simp [BBox.intersect, h1, h2]
  · intro C h
    unfold BBox.intersect at h
    split at h
    · exact absurd h (by simp)
    · split at h
      · exact absurd h (by simp)
      · cases h
        exact ⟨rfl, rfl, rfl⟩
  · rintro ⟨h1, h2⟩
    refine ⟨⟨vmax A.mins B.mins, vmin A.maxes B.maxes,
      A.contents &&& B.contents⟩, ?_, ?_⟩
    · unfold BBox.intersect
      rw [if_neg h1, if_neg (by omega)]
    · simp [BBox.is_plane, h2]

/-- Helper: on a volume with at most one degenerate axis, `is_plane`
holds exactly for one degenerate axis and `plane_normal` is the
positive unit vector of that axis. -/
theorem is_plane_spec (bb : BBox) (hv : degenCount bb.mins bb.maxes ≤ 1) :
    (bb.is_plane = true ↔
      ((bb.mins.x = bb.maxes.x ∧ bb.mins.y ≠ bb.maxes.y ∧ bb.mins.z ≠ bb.maxes.z) ∨
       (bb.mins.x ≠ bb.maxes.x ∧ bb.mins.y = bb.maxes.y ∧ bb.mins.z ≠ bb.maxes.z) ∨
       (bb.mins.x ≠ bb.maxes.x ∧ bb.mins.y ≠ bb.maxes.y ∧ bb.mins.z = bb.maxes.z))) ∧
    (bb.is_plane = true →
      ((bb.mins.x = bb.maxes.x ∧ bb.plane_normal = ⟨1, 0, 0⟩) ∨
       (bb.mins.y = bb.maxes.y ∧ bb.plane_normal = ⟨0, 1, 0⟩) ∨
       (bb.mins.z = bb.maxes.z ∧ bb.plane_normal = ⟨0, 0, 1⟩))) := by
  unfold BBox.is_plane BBox.plane_normal degenCount at *
  by_cases hx : bb.mins.x = bb.maxes.x <;>
    by_cases hy : bb.mins.y = bb.maxes.y <;>
      by_cases hz : bb.mins.z = bb.maxes.z <;>
        simp_all

/-- C8: for a validly constructed volume, `is_plane` holds exactly when
one axis is zero-thickness and the other two are not, and then
`plane_normal` is the positive unit vector along the zero-thickness
axis. -/
theorem bbox_is_plane_normal (a b : Vec3) (c : Nat) (bb : BBox)
    (h : BBox.make a b c = some bb) :
    (bb.is_plane = true ↔
      ((bb.mins.x = bb.maxes.x ∧ bb.mins.y ≠ bb.maxes.y ∧ bb.mins.z ≠ bb.maxes.z) ∨
       (bb.mins.x ≠ bb.maxes.x ∧ bb.mins.y = bb.maxes.y ∧ bb.mins.z ≠ bb.maxes.z) ∨
       (bb.mins.x ≠ bb.maxes.x ∧ bb.mins.y ≠ bb.maxes.y ∧ bb.mins.z = bb.maxes.z))) ∧
    (bb.is_plane = true →
      ((bb.mins.x = bb.maxes.x ∧ bb.plane_normal = ⟨1, 0, 0⟩) ∨
       (bb.mins.y = bb.maxes.y ∧ bb.plane_normal = ⟨0, 1, 0⟩) ∨
       (bb.mins.z = bb.maxes.z ∧ bb.plane_normal = ⟨0, 0, 1⟩))) := by
  have hv : degenCount bb.mins bb.maxes ≤ 1 := by
    unfold BBox.make at h
    split at h
    · exact absurd h (by simp)
    · rename_i h2
      cases h
      dsimp only
      omega
  exact is_plane_spec bb hv

/-- C8 witness: the x-degenerate plane box from the construction tests,
checked concretely. -/
theorem bbox_is_plane_normal_witness :
    ((⟨⟨80, 90, 10⟩, ⟨80, 250, 40⟩, 4⟩ : BBox).is_plane = true ↔
      (((80 : ℚ) = 80 ∧ (90 : ℚ) ≠ 250 ∧ (10 : ℚ) ≠ 40) ∨
       ((80 : ℚ) ≠ 80 ∧ (90 : ℚ) = 250 ∧ (10 : ℚ) ≠ 40) ∨
       ((80 : ℚ) ≠ 80 ∧ (90 : ℚ) ≠ 250 ∧ (10 : ℚ) = 40))) ∧
    ((⟨⟨80, 90, 10⟩, ⟨80, 250, 40⟩, 4⟩ : BBox).is_plane = true →
      (((80 : ℚ) = 80 ∧
          (⟨⟨80, 90, 10⟩, ⟨80, 250, 40⟩, 4⟩ : BBox).plane_normal = ⟨1, 0, 0⟩) ∨
       ((90 : ℚ) = 250 ∧
          (⟨⟨80, 90, 10⟩, ⟨80, 250, 40⟩, 4⟩ : BBox).plane_normal = ⟨0, 1, 0⟩) ∨
       ((10 : ℚ) = 40 ∧
          (⟨⟨80, 90, 10⟩, ⟨80, 250, 40⟩, 4⟩ : BBox).plane_normal = ⟨0, 0, 1⟩))) :=
  bbox_is_plane_normal ⟨80, 90, 10⟩ ⟨80, 250, 40⟩ 4
    ⟨⟨80, 90, 10⟩, ⟨80, 250, 40⟩, 4⟩ (by decide)

/-- Helper: the snap tolerance is positive. -/
theorem tol_pos : (0 : ℚ) < tol := by norm_num [tol]

/-- Helper: a positive rational above tolerance in magnitude is above
tolerance itself. -/
theorem tol_lt_of_pos {q : ℚ} (h0 : 0 < q) (h : tol < qabs q) : tol < q := by
  unfold qabs at h
  rw [if_neg (not_lt.mpr (le_of_lt h0))] at h
  exact h

/-- Helper: a non-positive rational above tolerance in magnitude is
below the negated tolerance. -/
theorem lt_neg_tol_of_nonpos {q : ℚ} (h0 : ¬ 0 < q) (h : tol < qabs q) :
    q < -tol := by
  unfold qabs at h
  by_cases hq : q < 0
  · rw [if_pos hq] at h
    linarith
  · rw [if_neg hq] at h
    push_neg at h0
    have := tol_pos
    linarith

/-- Helper: full case analysis of the canonical snap — it fails exactly
off the aligned directions, and on success the produced normal is the
dominant axis with the dominant component's sign and points with the
input. -/
theorem canonNormal_cases (d : Vec3) :
    (canonNormal d = none ↔ ¬ alignedDir d) ∧
    (∀ n, canonNormal d = some n → snapSpec d n ∧ 0 < dotv n d) := by
  have htol := tol_pos
  unfold canonNormal
  by_cases h1 : qabs d.y ≤ qabs d.x ∧ qabs d.z ≤ qabs d.x
  · rw [if_pos h1]
    by_cases h2 : tol < qabs d.x ∧ qabs d.y ≤ tol ∧ qabs d.z ≤ tol
    · rw [if_pos h2]
      constructor
      · constructor
        · intro h
          exact absurd h (by simp)
        · intro hna
          exact absurd (Or.inl h2) hna
      · intro n hn
        injection hn with hn
        subst hn
        by_cases hx : 0 < d.x
        · rw [if_pos hx]
          have hgt : tol < d.x := tol_lt_of_pos hx h2.1
          refine ⟨Or.inl ⟨rfl, hgt, h1.1, h1.2, h2.2.1, h2.2.2⟩, ?_⟩
          unfold dotv Vec3.E
          dsimp only
          linarith
        · rw [if_neg hx]
          have hlt : d.x < -tol := lt_neg_tol_of_nonpos hx h2.1
          refine ⟨Or.inr (Or.inl ⟨rfl, hlt, h1.1, h1.2, h2.2.1, h2.2.2⟩), ?_⟩
          unfold dotv Vec3.W
          dsimp only
          linarith
    · rw [if_neg h2]
      constructor
      · constructor
        · intro _
          rintro (ha | ha | ha)
          · exact h2 ha
          · linarith [h1.1, ha.1, ha.2.1]
          · linarith [h1.2, ha.1, ha.2.1]
        · intro _
          rfl
      · intro n hn
        exact absurd hn (by simp)
  · rw [if_neg h1]
    have h1d : qabs d.x < qabs d.y ∨ qabs d.x < qabs d.z := by
      rcases not_and_or.mp h1 with ha | ha
      · exact Or.inl (not_le.mp ha)
      · exact Or.inr (not_le.mp ha)
    by_cases h3 : qabs d.z ≤ qabs d.y
    · rw [if_pos h3]
      by_cases h4 : tol < qabs d.y ∧ qabs d.x ≤ tol ∧ qabs d.z ≤ tol
      · rw [if_pos h4]
        constructor
        · constructor
          · intro h
            exact absurd h (by simp)
          · intro hna
            exact absurd (Or.inr (Or.inl h4)) hna
        · intro n hn
          injection hn with hn
          subst hn
          have hdomx : qabs d.x ≤ qabs d.y := le_of_lt (lt_of_le_of_lt h4.2.1 h4.1)
          by_cases hy : 0 < d.y
          · rw [if_pos hy]
            have hgt : tol < d.y := tol_lt_of_pos hy h4.1
            refine ⟨Or.inr (Or.inr (Or.inl ⟨rfl, hgt, hdomx, h3, h4.2.1, h4.2.2⟩)), ?_⟩
            unfold dotv Vec3.N
            dsimp only
            linarith
          · rw [if_neg hy]
            have hlt : d.y < -tol := lt_neg_tol_of_nonpos hy h4.1
            refine ⟨Or.inr (Or.inr (Or.inr (Or.inl
              ⟨rfl, hlt, hdomx, h3, h4.2.1, h4.2.2⟩))), ?_⟩
            unfold dotv Vec3.S
            dsimp only
            linarith
      · rw [if_neg h4]
        constructor
        · constructor
          · intro _
            rintro (ha | ha | ha)
            · rcases h1d with hb | hb
              · linarith [ha.1, ha.2.1]
              · linarith [ha.1, ha.2.2]
            · exact h4 ha
            · linarith [h3, ha.1, ha.2.2]
          · intro _
            rfl
        · intro n hn
          exact absurd hn (by simp)
    · rw [if_neg h3]
      have h3d : qabs d.y < qabs d.z := not_le.mp h3
      by_cases h5 : tol < qabs d.z ∧ qabs d.x ≤ tol ∧ qabs d.y ≤ tol
      · rw [if_pos h5]
        constructor
        · constructor
          · intro h
            exact absurd h (by simp)
          · intro hna
            exact absurd (Or.inr (Or.inr h5)) hna
        · intro n hn
          injection hn with hn
          subst hn
          have hdomx : qabs d.x ≤ qabs d.z := le_of_lt (lt_of_le_of_lt h5.2.1 h5.1)
          have hdomy : qabs d.y ≤ qabs d.z := le_of_lt h3d
          by_cases hz : 0 < d.z
          · rw [if_pos hz]
            have hgt : tol < d.z := tol_lt_of_pos hz h5.1
            refine ⟨Or.inr (Or.inr (Or.inr (Or.inr (Or.inl
              ⟨rfl, hgt, hdomx, hdomy, h5.2.1, h5.2.2⟩)))), ?_⟩
            unfold dotv Vec3.T
            dsimp only
            linarith
          · rw [if_neg hz]
            have hlt : d.z < -tol := lt_neg_tol_of_nonpos hz h5.1
            refine ⟨Or.inr (Or.inr (Or.inr (Or.inr (Or.inr
              ⟨rfl, hlt, hdomx, hdomy, h5.2.1, h5.2.2⟩)))), ?_⟩
            unfold dotv Vec3.B
            dsimp only
            linarith
      · rw [if_neg h5]
        constructor
        · constructor
          · intro _
            rintro (ha | ha | ha)
            · rcases h1d with hb | hb
              · linarith [ha.1, ha.2.1]
              · linarith [ha.1, ha.2.2]
            · linarith [h3d, ha.1, ha.2.2]
            · exact h5 ha
          · intro _
            rfl
        · intro n hn
          exact absurd hn (by simp)

/-- C4: `PlaneKey` construction fails exactly for a zero or non-aligned
direction (in both forms); on success the stored normal is the
dominant-axis canonical direction with the dominant component's sign,
form A keeps the given distance (the canonical normal never points
against the input, so the sign-flip negation never fires), and form B
computes the distance as the dot product of the point with the
post-snap canonical normal. -/
theorem planekey_construction (d : Vec3) (dist : ℚ) (pt : Vec3) :
    (PlaneKey.fromDist d dist = none ↔ ¬ alignedDir d) ∧
    (PlaneKey.fromPoint d pt = none ↔ ¬ alignedDir d) ∧
    (∀ k, PlaneKey.fromDist d dist = some k →
      snapSpec d k.normal ∧ 0 < dotv k.normal d ∧ k.distance = dist) ∧
    (∀ k, PlaneKey.fromPoint d pt = some k →
      snapSpec d k.normal ∧ k.distance = dotv pt k.normal) := by
  obtain ⟨hnone, hsome⟩ := canonNormal_cases d
  refine ⟨?_, ?_, ?_, ?_⟩
  · unfold PlaneKey.fromDist
    rw [Option.map_eq_none']
    exact hnone
  · unfold PlaneKey.fromPoint
    rw [Option.map_eq_none']
    exact hnone
  · intro k hk
    unfold PlaneKey.fromDist at hk
    rcases Option.map_eq_some'.mp hk with ⟨n, hcn, hk2⟩
    obtain ⟨hsnap, hdot⟩ := hsome n hcn
    subst hk2
    refine ⟨hsnap, hdot, ?_⟩
    dsimp only
    rw [if_neg (not_lt.mpr (le_of_lt hdot))]
  · intro k hk
    unfold PlaneKey.fromPoint at hk
    rcases Option.map_eq_some'.mp hk with ⟨n, hcn, hk2⟩
    obtain ⟨hsnap, _⟩ := hsome n hcn
    subst hk2
    exact ⟨hsnap, rfl⟩

/-- C9: for each of the six canonical normals the orientation basis has
up equal to the normal, left and forward per the fixed convention
(left is vertical-up for the four horizontal normals and north for top
and bottom; forward is N to W, S to E, E to N, W to S, T to E, B to W),
and the basis round-trips through the angle representation: angle of
the basis, back to a basis, and to an angle again gives the same
angle. -/
theorem planekey_orient_basis_roundtrip :
    (PlaneKey.fromDist Vec3.N 12 = some ⟨Vec3.N, 12⟩ ∧
      (PlaneKey.mk Vec3.N 12).orient.u = Vec3.N ∧
      (PlaneKey.mk Vec3.N 12).orient.l = Vec3.T ∧
      (PlaneKey.mk Vec3.N 12).orient.f = Vec3.W ∧
      Matrix3.to_angle (Matrix3.from_angle
        (Matrix3.to_angle (PlaneKey.mk Vec3.N 12).orient)) =
        Matrix3.to_angle (PlaneKey.mk Vec3.N 12).orient) ∧
    (PlaneKey.fromDist Vec3.S 12 = some ⟨Vec3.S, 12⟩ ∧
      (PlaneKey.mk Vec3.S 12).orient.u = Vec3.S ∧
      (PlaneKey.mk Vec3.S 12).orient.l = Vec3.T ∧
      (PlaneKey.mk Vec3.S 12).orient.f = Vec3.E ∧
      Matrix3.to_angle (Matrix3.from_angle
        (Matrix3.to_angle (PlaneKey.mk Vec3.S 12).orient)) =
        Matrix3.to_angle (PlaneKey.mk Vec3.S 12).orient) ∧
    (PlaneKey.fromDist Vec3.E 12 = some ⟨Vec3.E, 12⟩ ∧
      (PlaneKey.mk Vec3.E 12).orient.u = Vec3.E ∧
      (PlaneKey.mk Vec3.E 12).orient.l = Vec3.T ∧
      (PlaneKey.mk Vec3.E 12).orient.f = Vec3.N ∧
      Matrix3.to_angle (Matrix3.from_angle
        (Matrix3.to_angle (PlaneKey.mk Vec3.E 12).orient)) =
        Matrix3.to_angle (PlaneKey.mk Vec3.E 12).orient) ∧
    (PlaneKey.fromDist Vec3.W 12 = some ⟨Vec3.W, 12⟩ ∧
      (PlaneKey.mk Vec3.W 12).orient.u = Vec3.W ∧
      (PlaneKey.mk Vec3.W 12).orient.l = Vec3.T ∧
      (PlaneKey.mk Vec3.W 12).orient.f = Vec3.S ∧
      Matrix3.to_angle (Matrix3.from_angle
        (Matrix3.to_angle (PlaneKey.mk Vec3.W 12).orient)) =
        Matrix3.to_angle (PlaneKey.mk Vec3.W 12).orient) ∧
    (PlaneKey.fromDist Vec3.T 12 = some ⟨Vec3.T, 12⟩ ∧
      (PlaneKey.mk Vec3.T 12).orient.u = Vec3.T ∧
      (PlaneKey.mk Vec3.T 12).orient.l = Vec3.N ∧
      (PlaneKey.mk Vec3.T 12).orient.f = Vec3.E ∧
      Matrix3.to_angle (Matrix3.from_angle
        (Matrix3.to_angle (PlaneKey.mk Vec3.T 12).orient)) =
        Matrix3.to_angle (PlaneKey.mk Vec3.T 12).orient) ∧
    (PlaneKey.fromDist Vec3.B 12 = some ⟨Vec3.B, 12⟩ ∧
      (PlaneKey.mk Vec3.B 12).orient.u = Vec3.B ∧
      (PlaneKey.mk Vec3.B 12).orient.l = Vec3.N ∧
      (PlaneKey.mk Vec3.B 12).orient.f = Vec3.W ∧
      Matrix3.to_angle (Matrix3.from_angle
        (Matrix3.to_angle (PlaneKey.mk Vec3.B 12).orient)) =
        Matrix3.to_angle (PlaneKey.mk Vec3.B 12).orient) := by
  decide
